import Mathlib

/-!
Shallow embedding of `src/main.py`: a FastAPI application registering three
GET routes (`/`, `/ready`, `/health`), each handler returning a fixed JSON
object.  Requests carry a method, a path, headers and a body; the handlers
read none of the latter two.  The dispatcher follows the framework's routing
semantics: an exact (method, path) match invokes the handler with status 200;
a path that matches a route under a different method yields 405; an unmatched
path yields 404, each with the framework's default JSON error body.
-/

namespace FastapiMinikube

/-- HTTP request methods. -/
inductive Method
  | GET | POST | PUT | DELETE | PATCH | HEAD | OPTIONS
  deriving DecidableEq, Repr

/-- An incoming HTTP request: method, path, headers, raw body.  The handlers
in `src/main.py` declare no parameters, so headers and body are never read. -/
structure Request where
  method : Method
  path : String
  headers : List (String × String)
  body : String
  deriving DecidableEq, Repr

/-- A JSON object as produced by the handlers: a flat string-to-string
dictionary, matching the Python dict literals in `src/main.py`. -/
abbrev Json := List (String × String)

/-- An HTTP response: status code, headers, JSON body. -/
structure Response where
  status : Nat
  headers : List (String × String)
  body : Json
  deriving DecidableEq, Repr

/-- Handler of `GET /` (`read_root` in `src/main.py`): returns
`{"message": "Hello from FastAPI on Minikube 🚀"}`. -/
def read_root : Unit → Json :=
  fun _ => [("message", "Hello from FastAPI on Minikube 🚀")]

/-- Handler of `GET /ready` (`readiness` in `src/main.py`): returns
`{"status": "ok"}`. -/
def readiness : Unit → Json :=
  fun _ => [("status", "ok")]

/-- Handler of `GET /health` (`health` in `src/main.py`): returns
`{"status": "ok"}`. -/
def health : Unit → Json :=
  fun _ => [("status", "ok")]

/-- A registered route: the bound method, path and handler. -/
structure Route where
  method : Method
  path : String
  handler : Unit → Json

/-- The route table built by the three `@app.get` decorators in
`src/main.py`, in registration order. -/
def appRoutes : List Route :=
  [ ⟨Method.GET, "/", read_root⟩
  , ⟨Method.GET, "/ready", readiness⟩
  , ⟨Method.GET, "/health", health⟩ ]

/-- Headers the framework attaches to a JSON response. -/
def jsonHeaders : List (String × String) :=
  [("content-type", "application/json")]

/-- Framework default body for `404 Not Found`. -/
def notFoundBody : Json := [("detail", "Not Found")]

/-- Framework default body for `405 Method Not Allowed`. -/
def methodNotAllowedBody : Json := [("detail", "Method Not Allowed")]

/-- The dispatcher: first route whose method and path both match handles the
request with status 200; a path registered only under other methods yields
405; otherwise 404.  This is the hosting framework's routing behaviour over
the table registered by `src/main.py`. -/
def dispatch (rs : List Route) (req : Request) : Response :=
  match rs.find? (fun r => r.path == req.path && r.method == req.method) with
  | some r => ⟨200, jsonHeaders, r.handler ()⟩
  | none =>
      if rs.any (fun r => r.path == req.path) then
        ⟨405, jsonHeaders, methodNotAllowedBody⟩
      else
        ⟨404, jsonHeaders, notFoundBody⟩

/-- The service state: the immutable route table.  `src/main.py` declares no
module-level mutable variables, so this is all the state there is. -/
def AppState := List Route

/-- Handling one request: produce a response and the (unchanged) state. -/
def handle (s : AppState) (req : Request) : Response × AppState :=
  (dispatch s req, s)

/-- Handling a sequence of requests, threading the state through. -/
def run (s : AppState) : List Request → List Response
  | [] => []
  | req :: reqs =>
      let p := handle s req
      p.1 :: run p.2 reqs

/-- The dispatcher inspects only the method and path of a request. -/
lemma dispatch_congr (rs : List Route) (r1 r2 : Request)
    (hm : r1.method = r2.method) (hp : r1.path = r2.path) :
    dispatch rs r1 = dispatch rs r2 := by
  simp only [dispatch, hm, hp]

/-- If no registered route has the request's path, the dispatcher answers 404. -/
lemma dispatch_no_path (rs : List Route) (req : Request)
    (h : ∀ r ∈ rs, r.path ≠ req.path) :
    dispatch rs req = ⟨404, jsonHeaders, notFoundBody⟩ := by
  have hfind : rs.find? (fun r => r.path == req.path && r.method == req.method) = none := by
    rw [List.find?_eq_none]
    intro r hr
    simp [h r hr]
  have hany : rs.any (fun r => r.path == req.path) = false := by
    rw [Bool.eq_false_iff]
    intro hcontra
    rw [List.any_eq_true] at hcontra
    obtain ⟨r, hr, hb⟩ := hcontra
    exact h r hr (by simpa using hb)
  simp [dispatch, hfind, hany]

end FastapiMinikube

namespace FastapiMinikube

/-- C1: For every GET request to path `/`, the service returns status 200 with
exactly the JSON body `{"message": "Hello from FastAPI on Minikube 🚀"}`,
emoji included. -/
theorem c1_get_root (hs : List (String × String)) (b : String) :
    dispatch appRoutes ⟨Method.GET, "/", hs, b⟩ =
      ⟨200, jsonHeaders, [("message", "Hello from FastAPI on Minikube 🚀")]⟩ := rfl

/-- C2: For every GET request to path `/ready`, the service returns status 200
with exactly the JSON body `{"status": "ok"}`. -/
theorem c2_get_ready (hs : List (String × String)) (b : String) :
    dispatch appRoutes ⟨Method.GET, "/ready", hs, b⟩ =
      ⟨200, jsonHeaders, [("status", "ok")]⟩ := rfl

/-- C3: For every GET request to path `/health`, the service returns status 200
with exactly the JSON body `{"status": "ok"}`. -/
theorem c3_get_health (hs : List (String × String)) (b : String) :
    dispatch appRoutes ⟨Method.GET, "/health", hs, b⟩ =
      ⟨200, jsonHeaders, [("status", "ok")]⟩ := rfl

/-- C4: Every request whose path is none of `/`, `/ready`, `/health` is mapped
to no handler and receives status 404. -/
theorem c4_unknown_path_404 (req : Request)
    (hp1 : req.path ≠ "/") (hp2 : req.path ≠ "/ready") (hp3 : req.path ≠ "/health") :
    (dispatch appRoutes req).status = 404 := by
  rw [dispatch_no_path]
  intro r hr
  simp only [appRoutes, List.mem_cons, List.not_mem_nil, or_false] at hr
  rcases hr with rfl | rfl | rfl
  · exact fun h => hp1 h.symm
  · exact fun h => hp2 h.symm
  · exact fun h => hp3 h.symm

/-- Witness for C4: `GET /nonexistent` yields 404. -/
theorem c4_unknown_path_404_witness :
    ("/nonexistent" ≠ "/" ∧ "/nonexistent" ≠ "/ready" ∧ "/nonexistent" ≠ "/health") ∧
    (dispatch appRoutes ⟨Method.GET, "/nonexistent", [], ""⟩).status = 404 :=
  ⟨by decide,
   c4_unknown_path_404 ⟨Method.GET, "/nonexistent", [], ""⟩
     (by decide) (by decide) (by decide)⟩

/-- C5: Every request to a defined path with a method other than GET receives
status 405 (Method Not Allowed), the router's default. -/
theorem c5_wrong_method_405 (req : Request)
    (hp : req.path = "/" ∨ req.path = "/ready" ∨ req.path = "/health")
    (hm : req.method ≠ Method.GET) :
    (dispatch appRoutes req).status = 405 := by
  obtain ⟨m, p, hs, b⟩ := req
  simp only at hp hm
  rcases hp with rfl | rfl | rfl <;>
    cases m <;> first | exact absurd rfl hm | rfl

/-- Witness for C5: `POST /` yields 405. -/
theorem c5_wrong_method_405_witness :
    (("/" : String) = "/" ∨ ("/" : String) = "/ready" ∨ ("/" : String) = "/health") ∧
    Method.POST ≠ Method.GET ∧
    (dispatch appRoutes ⟨Method.POST, "/", [], ""⟩).status = 405 :=
  ⟨Or.inl rfl, by decide,
   c5_wrong_method_405 ⟨Method.POST, "/", [], ""⟩ (Or.inl rfl) (by decide)⟩

/-- C6: For every defined route and every pair of requests addressed to it,
the two responses are identical: each handler is a constant function, so
repeated calls show no drift in payload. -/
theorem c6_responses_stable (ro : Route) (hro : ro ∈ appRoutes)
    (r1 r2 : Request)
    (h1m : r1.method = ro.method) (h1p : r1.path = ro.path)
    (h2m : r2.method = ro.method) (h2p : r2.path = ro.path) :
    dispatch appRoutes r1 = dispatch appRoutes r2 :=
  dispatch_congr appRoutes r1 r2 (h1m.trans h2m.symm) (h1p.trans h2p.symm)

/-- Witness for C6: two distinct requests to `GET /` (different headers and
bodies) receive the same response. -/
theorem c6_responses_stable_witness :
    (⟨Method.GET, "/", read_root⟩ : Route) ∈ appRoutes ∧
    dispatch appRoutes ⟨Method.GET, "/", [("x", "1")], "first"⟩ =
      dispatch appRoutes ⟨Method.GET, "/", [], "second"⟩ :=
  ⟨by unfold appRoutes; exact List.mem_cons_self _ _,
   c6_responses_stable ⟨Method.GET, "/", read_root⟩
     (by unfold appRoutes; exact List.mem_cons_self _ _)
     ⟨Method.GET, "/", [("x", "1")], "first"⟩
     ⟨Method.GET, "/", [], "second"⟩ rfl rfl rfl rfl⟩

/-- C7: Handling a request leaves the service state unchanged, and handling a
sequence of requests gives exactly the responses each request would get on its
own: every request is independent of every other. -/
theorem c7_stateless_independent :
    (∀ (s : AppState) (req : Request), (handle s req).2 = s) ∧
    (∀ (s : AppState) (reqs : List Request),
      run s reqs = reqs.map (fun req => (handle s req).1)) := by
  refine ⟨fun s req => rfl, fun s reqs => ?_⟩
  induction reqs with
  | nil => rfl
  | cons req reqs ih => simp [run, handle, ih]

/-- C8: Every request to a defined route (GET on `/`, `/ready` or `/health`)
is handled without any error: the response status is 200. -/
theorem c8_no_failure (req : Request)
    (hm : req.method = Method.GET)
    (hp : req.path = "/" ∨ req.path = "/ready" ∨ req.path = "/health") :
    (dispatch appRoutes req).status = 200 := by
  obtain ⟨m, p, hs, b⟩ := req
  simp only at hm hp
  subst hm
  rcases hp with rfl | rfl | rfl <;> rfl

/-- Witness for C8: `GET /health` succeeds with status 200. -/
theorem c8_no_failure_witness :
    Method.GET = Method.GET ∧
    (("/health" : String) = "/" ∨ ("/health" : String) = "/ready" ∨
      ("/health" : String) = "/health") ∧
    (dispatch appRoutes ⟨Method.GET, "/health", [], ""⟩).status = 200 :=
  ⟨rfl, Or.inr (Or.inr rfl),
   c8_no_failure ⟨Method.GET, "/health", [], ""⟩ rfl (Or.inr (Or.inr rfl))⟩

/-- C9: Every response carries `Content-Type: application/json` (so in
particular every successful one does); the registered routes are exactly the
three GET routes `/`, `/ready`, `/health`; and no other (method, path) pair is
answered with a 2xx status. -/
theorem c9_surface (req : Request) :
    (dispatch appRoutes req).headers = jsonHeaders ∧
    appRoutes.map (fun r => (r.method, r.path)) =
      [(Method.GET, "/"), (Method.GET, "/ready"), (Method.GET, "/health")] ∧
    (200 ≤ (dispatch appRoutes req).status → (dispatch appRoutes req).status < 300 →
      req.method = Method.GET ∧
        (req.path = "/" ∨ req.path = "/ready" ∨ req.path = "/health")) := by
  refine ⟨?_, rfl, ?_⟩
  · unfold dispatch
    split
    · rfl
    · split <;> rfl
  · intro hlo hhi
    by_contra hcon
    rw [not_and_or] at hcon
    have h404 : ¬ ((dispatch appRoutes req).status = 404 ∨
        (dispatch appRoutes req).status = 405) := by
      rintro (h | h) <;> omega
    apply h404
    unfold dispatch
    rcases hfind : appRoutes.find?
        (fun r => r.path == req.path && r.method == req.method) with _ | r
    · simp only [hfind]
      split
      · exact Or.inr rfl
      · exact Or.inl rfl
    · exfalso
      have hmem := List.mem_of_find?_eq_some hfind
      have hpred := List.find?_some hfind
      simp only [Bool.and_eq_true, beq_iff_eq] at hpred
      simp only [appRoutes, List.mem_cons, List.not_mem_nil, or_false] at hmem
      rcases hcon with hcm | hcp
      · rcases hmem with rfl | rfl | rfl <;> exact hcm hpred.2.symm
      · rcases hmem with rfl | rfl | rfl
        · exact hcp (Or.inl hpred.1.symm)
        · exact hcp (Or.inr (Or.inl hpred.1.symm))
        · exact hcp (Or.inr (Or.inr hpred.1.symm))

/-- Witness for C9: on `GET /ready` the response headers are the JSON headers,
the route table is the three GET routes, and the 2xx response implies the
request is one of them. -/
theorem c9_surface_witness :
    (dispatch appRoutes ⟨Method.GET, "/ready", [], ""⟩).headers = jsonHeaders ∧
    (Method.GET = Method.GET ∧
      (("/ready" : String) = "/" ∨ ("/ready" : String) = "/ready" ∨
        ("/ready" : String) = "/health")) :=
  ⟨(c9_surface ⟨Method.GET, "/ready", [], ""⟩).1,
   (c9_surface ⟨Method.GET, "/ready", [], ""⟩).2.2 (by decide) (by decide)⟩

/-- C10: The `/ready` and `/health` handlers are extensionally equal, and for
any method, headers and bodies, a request to `/ready` and one to `/health`
receive identical responses: the two probes are interchangeable. -/
theorem c10_ready_health_interchangeable :
    readiness = health ∧
    ∀ (m : Method) (hs1 : List (String × String)) (b1 : String)
      (hs2 : List (String × String)) (b2 : String),
      dispatch appRoutes ⟨m, "/ready", hs1, b1⟩ =
        dispatch appRoutes ⟨m, "/health", hs2, b2⟩ := by
  refine ⟨rfl, fun m hs1 b1 hs2 b2 => ?_⟩
  cases m <;> rfl

end FastapiMinikube
